import Mathlib

/-
  Verification development for the tradingview-telegram-service repository
  (src/main.py).  The embedding below mirrors, in order:

  * MARKET_SETTINGS and calculate_rr_levels  (main.py lines 66-136);
  * the /calculate-rr endpoint calculate_risk_reward (lines 247-282),
    including its catch-all except clause that re-raises any inner
    HTTPException as a 500 whose detail is str(e);
  * format_signal_message (lines 598-635) and the message-selection logic
    of send_signal (lines 311-382), including the user_states writes and
    the KeyError paths for missing instrument/timeframe;
  * button_handler (lines 384-562), the Telegram callback handler.

  Modelling conventions:
  * Python floats are embedded as exact rationals; Python round(x, d) is
    embedded as round-half-even on the exact rational value (pyRound).
  * JSON payload fields that are only interpolated into message text are
    embedded as the strings Python interpolates for them.
  * Outbound Telegram calls are embedded as explicit action lists; the
    external chart/news providers are oracle parameters of type
    Option String, none modelling a failed or timed-out call (matching the
    None returned by get_chart_image / get_news_analysis on any error).
  * Exception texts that originate outside the program (the Telegram
    library) are supplied by the delivery oracle.
-/

set_option maxHeartbeats 1000000
set_option maxRecDepth 10000

/-- Python str.upper(), on the basic-latin data these payloads carry
(character-list map, kernel-reducible). -/
def upperString (s : String) : String := String.mk (s.data.map Char.toUpper)

/-- Python str.lower(), on the basic-latin data these payloads carry. -/
def lowerString (s : String) : String := String.mk (s.data.map Char.toLower)

/-- Python str.strip(): drop whitespace at both ends. -/
def trimString (s : String) : String :=
  String.mk (((s.data.dropWhile Char.isWhitespace).reverse.dropWhile
    Char.isWhitespace).reverse)

/-- Per-instrument quoting convention, one row of MARKET_SETTINGS. -/
structure MarketSetting where
  pip_value : ℚ
  decimals : ℕ
deriving Repr, DecidableEq

/-- The static MARKET_SETTINGS table of main.py (lines 66-88). -/
def MARKET_SETTINGS : List (String × MarketSetting) :=
  [(("EURUSD"), ⟨1/10000, 4⟩),
   (("GBPUSD"), ⟨1/10000, 4⟩),
   (("USDJPY"), ⟨1/100, 3⟩),
   (("AUDUSD"), ⟨1/10000, 4⟩),
   (("USDCAD"), ⟨1/10000, 4⟩),
   (("BTCUSD"), ⟨1, 1⟩),
   (("ETHUSD"), ⟨1/10, 2⟩),
   (("XRPUSD"), ⟨1/10000, 4⟩),
   (("US30"), ⟨1, 0⟩),
   (("SPX500"), ⟨1/4, 2⟩),
   (("NAS100"), ⟨1/4, 2⟩),
   (("XAUUSD"), ⟨1/10, 2⟩),
   (("XAGUSD"), ⟨1/100, 3⟩),
   (("WTIUSD"), ⟨1/100, 2⟩)]

/-- The default forex settings used when the instrument is unknown
(main.py line 109). -/
def default_forex_settings : MarketSetting := ⟨1/10000, 4⟩

/-- MARKET_SETTINGS.get(instrument.upper()) with the default fallback. -/
def effectiveSettings (instrument : String) : MarketSetting :=
  (MARKET_SETTINGS.lookup (upperString instrument)).getD default_forex_settings

/-- Python round-to-nearest with ties to even, on the exact rational value,
producing an integer. -/
def roundHalfEven (x : ℚ) : ℤ :=
  if x - (⌊x⌋ : ℚ) < 1/2 then ⌊x⌋
  else if x - (⌊x⌋ : ℚ) = 1/2 then (if ⌊x⌋ % 2 = 0 then ⌊x⌋ else ⌊x⌋ + 1)
  else ⌊x⌋ + 1

/-- Python round(x, d): round half-to-even at d decimal places. -/
def pyRound (x : ℚ) (d : ℕ) : ℚ := (roundHalfEven (x * 10 ^ d) : ℚ) / 10 ^ d

/-- The dict returned by calculate_rr_levels (main.py lines 126-133). -/
structure RRLevels where
  entry_price : ℚ
  stop_loss : ℚ
  take_profit : ℚ
  risk_points : ℚ
  risk_pips : Option ℚ
  pip_value : ℚ
deriving Repr, DecidableEq

/-- Lines 114-116: if risk_pips is not None, risk_points is recomputed as
risk_pips * pip_value, otherwise the given risk_points is used. -/
def calcRiskPoints (risk_pips risk_points : Option ℚ) (pip_value : ℚ) : Option ℚ :=
  match risk_pips with
  | some p => some (p * pip_value)
  | none => risk_points

/-- Body of calculate_rr_levels for fixed settings (main.py lines 111-133).
A missing risk (both arguments None) raises a TypeError at line 120, caught
by the blanket except which returns None; that is the none branch here. -/
def calcWithSettings (s : MarketSetting) (entry_price : ℚ) (direction : String)
    (risk_pips risk_points : Option ℚ) : Option RRLevels :=
  match calcRiskPoints risk_pips risk_points s.pip_value with
  | none => none
  | some y =>
      if lowerString direction = "buy" then
        some ⟨entry_price, pyRound (entry_price - y) s.decimals,
              pyRound (entry_price + y) s.decimals, y,
              (if s.pip_value = 0 then none else some (y / s.pip_value)), s.pip_value⟩
      else
        some ⟨entry_price, pyRound (entry_price + y) s.decimals,
              pyRound (entry_price - y) s.decimals, y,
              (if s.pip_value = 0 then none else some (y / s.pip_value)), s.pip_value⟩

/-- calculate_rr_levels (main.py lines 90-136). -/
def calculate_rr_levels (instrument : String) (entry_price : ℚ) (direction : String)
    (risk_pips risk_points : Option ℚ) : Option RRLevels :=
  calcWithSettings (effectiveSettings instrument) entry_price direction risk_pips risk_points

/-- Outcome of a FastAPI request handler: a value or an HTTPException. -/
inductive HttpOutcome (α : Type) where
  | ok (value : α)
  | httpError (code : ℕ) (detail : String)
deriving Repr, DecidableEq

/-- The data object returned by the /calculate-rr endpoint on success. -/
structure CalcRRResponse where
  instrument : String
  direction : String
  levels : RRLevels
  message : String
deriving Repr, DecidableEq

/-- Python falsiness of an optional float: None and 0.0 are falsy. -/
def falsyOptQ : Option ℚ → Bool
  | none => true
  | some x => decide (x = 0)

/-- The /calculate-rr endpoint calculate_risk_reward (main.py lines
247-282).  The try body may raise an HTTPException (400 for missing risk,
500 for a failed computation); the catch-all except clause catches it (it
is an Exception subclass) and re-raises HTTPException(500, str(e)), where
starlette renders str(e) as "code: detail". -/
def calculate_risk_reward (instrument : String) (entry_price : ℚ) (direction : String)
    (risk_pips risk_points : Option ℚ) : HttpOutcome CalcRRResponse :=
  let inner : HttpOutcome CalcRRResponse :=
    if falsyOptQ risk_pips && falsyOptQ risk_points then
      HttpOutcome.httpError 400 ("Either risk_pips or risk_points must be provided")
    else
      match calculate_rr_levels instrument entry_price direction risk_pips risk_points with
      | none => HttpOutcome.httpError 500 ("Error calculating RR levels")
      | some levels =>
          HttpOutcome.ok ⟨instrument, direction, levels,
            "Calculated 1:1 RR levels for " ++ instrument ++ " " ++ direction ++ " trade"⟩
  match inner with
  | HttpOutcome.ok v => HttpOutcome.ok v
  | HttpOutcome.httpError code detail =>
      HttpOutcome.httpError 500 (toString code ++ ": " ++ detail)

/-- The per-chat entry stored in the user_states dict (main.py lines
340-344 and 363-367).  Each field models the presence of the dict key;
send_signal always writes all three, but button_handler is defensive about
missing keys, so the model keeps them optional. -/
structure UserState where
  instrument : Option String
  timeframe : Option String
  original_message : Option String
deriving Repr, DecidableEq

/-- The global user_states dict, keyed by the stringified chat id. -/
abbrev StateMap := List (String × UserState)

/-- Dict assignment user_states[k] = v. -/
def setState : StateMap → String → UserState → StateMap
  | [], k, v => [(k, v)]
  | (k', v') :: rest, k, v =>
      if k' = k then (k, v) :: rest else (k', v') :: setState rest k v

/-- The inbound signal_data payload.  Fields that only flow into message
text are embedded as the strings Python interpolates for them (a JSON
number like 1.1000 is parsed to the float 1.1, which str() renders as
"1.1").  A none field models an absent JSON key. -/
structure SignalData where
  instrument : Option String
  direction : Option String
  entry_price : Option String
  stop_loss : Option String
  take_profit : Option String
  timeframe : Option String
  strategy : Option String
  ai_verdict : Option String
  formatted_message : Option String
deriving Repr, DecidableEq

/-- format_signal_message (main.py lines 598-635).  If the
formatted_message key is present it is returned verbatim (even when
empty); otherwise the fixed HTML template is filled in with .get defaults.
The surrounding try/except cannot fire in this model because every field
access uses a .get default. -/
def format_signal_message (sd : SignalData) : String :=
  match sd.formatted_message with
  | some m => m
  | none =>
      let direction_emoji :=
        if lowerString (sd.direction.getD ("")) = "buy" then ("📈") else ("📉")
      "<b>🚨 New Trading Signal 🚨</b>\n\n<b>Instrument:</b> "
        ++ sd.instrument.getD ("Unknown")
        ++ "\n<b>Action:</b> " ++ upperString (sd.direction.getD ("Unknown"))
        ++ " " ++ direction_emoji
        ++ "\n\n<b>Entry Price:</b> " ++ sd.entry_price.getD ("Unknown")
        ++ "\n<b>Stop Loss:</b> " ++ sd.stop_loss.getD ("Unknown") ++ " 🛑"
        ++ "\n<b>Take Profit:</b> " ++ sd.take_profit.getD ("Unknown") ++ " 🎯"
        ++ "\n\n<b>Timeframe:</b> " ++ sd.timeframe.getD ("Unknown")
        ++ "\n<b>Strategy:</b> " ++ sd.strategy.getD ("Unknown")
        ++ "\n\n--------------------\n\n<b>Risk Management:</b>\n• Position size: 1-2% max\n• Use proper stop loss\n• Follow your trading plan\n\n--------------------\n\n<b>🤖 SigmaPips AI Verdict:</b>\n"
        ++ sd.ai_verdict.getD ("AI verdict not available.") ++ "\n"

/-- Message selection in send_signal (main.py lines 318-321): use the
formatted_message field when it is present and non-empty (Python
falsiness), otherwise render the template. -/
def messageFor (sd : SignalData) : String :=
  let message := sd.formatted_message.getD ("")
  if message = "" then format_signal_message sd else message

/-- Result of one bot.send_message call: ok, or the exception text the
Telegram library raised.  Supplied as an oracle per recipient. -/
def deliverOk (deliver : String → Except String Unit) (s : String) : Bool :=
  match deliver s with
  | Except.ok _ => true
  | Except.error _ => false

/-- What /send-signal leaves behind: the user_states dict, the list of
(chat id, text) pairs successfully handed to bot.send_message, and the
HTTP response. -/
structure DispatchOutput where
  states : StateMap
  deliveries : List (String × String)
  result : HttpOutcome Unit
deriving Repr, DecidableEq

/-- The detail of the HTTPException(500) raised when the user_states dict
literal hits a KeyError: str(KeyError(k)) is the repr of the key.  The
instrument key is evaluated first (main.py lines 340-344). -/
def keyErrorDetail (sd : SignalData) : String :=
  "Error sending signal: "
    ++ (if sd.instrument.isNone then ("\x27instrument\x27") else ("\x27timeframe\x27"))

/-- The chat_id == "all" loop of send_signal (main.py lines 335-357): for
each subscriber, write user_states[sub] (before the send), then try the
send; a failed send is logged and skipped (continue). -/
def sendToSubscribers (inst tf message : String) (deliver : String → Except String Unit) :
    List String → StateMap → StateMap × List (String × String)
  | [], states => (states, [])
  | sub :: rest, states =>
      let subId := trimString sub
      let states1 := setState states subId ⟨some inst, some tf, some message⟩
      let tail := sendToSubscribers inst tf message deliver rest states1
      match deliver subId with
      | Except.ok _ => (tail.1, (subId, message) :: tail.2)
      | Except.error _ => tail

/-- send_signal (main.py lines 311-382).  chat_id None reaches the else
branch, where str(None).strip() yields the literal chat id "None".  A
KeyError on the missing instrument/timeframe key aborts the request with
the catch-all HTTPException(500); in the broadcast branch this happens in
the first loop iteration (before any state write or send), so an empty
subscriber list never touches the fields at all. -/
def send_signal (sd : SignalData) (chat_id : Option String) (subscribers : List String)
    (deliver : String → Except String Unit) (states : StateMap) : DispatchOutput :=
  let message := messageFor sd
  if chat_id = some ("all") then
    match subscribers with
    | [] => ⟨states, [], HttpOutcome.ok ()⟩
    | _ :: _ =>
        match sd.instrument, sd.timeframe with
        | some inst, some tf =>
            let out := sendToSubscribers inst tf message deliver subscribers states
            ⟨out.1, out.2, HttpOutcome.ok ()⟩
        | _, _ => ⟨states, [], HttpOutcome.httpError 500 (keyErrorDetail sd)⟩
  else
    let cid := trimString (match chat_id with | some c => c | none => ("None"))
    match sd.instrument, sd.timeframe with
    | some inst, some tf =>
        let states1 := setState states cid ⟨some inst, some tf, some message⟩
        match deliver cid with
        | Except.ok _ => ⟨states1, [(cid, message)], HttpOutcome.ok ()⟩
        | Except.error err =>
            ⟨states1, [], HttpOutcome.httpError 500 ("Error sending signal: " ++ err)⟩
    | _, _ => ⟨states, [], HttpOutcome.httpError 500 (keyErrorDetail sd)⟩

/-- The three inline keyboard shapes used by main.py: no markup, the
two-button Technical Analysis / Market Sentiment keyboard, and the single
Back to Signal button. -/
inductive Keyboard where
  | noKb
  | mainKb
  | backKb
deriving Repr, DecidableEq

/-- One outbound Telegram call made by button_handler. -/
inductive BotAction where
  | answerQuery
  | editMessage (text : String) (kb : Keyboard)
  | sendMessage (chat_id : String) (text : String) (kb : Keyboard)
  | sendPhoto (chat_id : String) (photo : String)
deriving Repr, DecidableEq

def techLoadingMsg : String := "📊 Generating technical analysis..."

def sentLoadingMsg : String := "📰 Analyzing market sentiment..."

def noPairInfoMsg : String :=
  "Sorry, I couldn\x27t find the trading pair information. Please try again with a new signal."

def genericErrorMsg : String :=
  "Sorry, something went wrong. Please try again with a new signal."

def chartApologyMsg : String :=
  "Sorry, I couldn\x27t generate the technical analysis chart. Please try again later."

def sentimentApologyMsg : String :=
  "Sorry, I couldn\x27t analyze the market sentiment. Please try again later."

def techTitleMsg (inst tf : String) : String :=
  "📊 Technical Analysis for " ++ inst ++ " (" ++ tf ++ ")"

def sentimentBodyMsg (inst news : String) : String :=
  "<b>📰 Market Sentiment Analysis for " ++ inst ++ "</b>\n\n" ++ news
    ++ "\n\n<i>Based on recent market news and events.</i>"

/-- button_handler (main.py lines 384-562) as a function of the callback
data, the user_states dict, and the two content-provider oracles
(chartResult for get_chart_image, newsResult for get_news_analysis; none
models any provider failure, which the code turns into a raise inside the
inner try).  A missing original_message key raises KeyError in both the
success path (after the sends) and the inner except handler, landing in
the outer except ("Sorry, something went wrong...").  The handler never
writes user_states in any branch. -/
def button_handler (chat_id : String) (data : String) (states : StateMap)
    (chartResult : Option String) (newsResult : Option String) :
    StateMap × List BotAction :=
  let st := (states.lookup chat_id).getD ⟨none, none, none⟩
  let actions : List BotAction :=
    if data = "technical_analysis" then
      match st.instrument, st.timeframe with
      | some inst, some tf =>
          (BotAction.editMessage techLoadingMsg Keyboard.noKb) ::
          (match chartResult with
           | some img =>
               (BotAction.sendMessage chat_id (techTitleMsg inst tf) Keyboard.backKb) ::
               (BotAction.sendPhoto chat_id img) ::
               (match st.original_message with
                | some orig => [BotAction.editMessage orig Keyboard.mainKb]
                | none => [BotAction.editMessage genericErrorMsg Keyboard.noKb])
           | none =>
               match st.original_message with
               | some orig =>
                   [BotAction.editMessage orig Keyboard.mainKb,
                    BotAction.sendMessage chat_id chartApologyMsg Keyboard.noKb]
               | none => [BotAction.editMessage genericErrorMsg Keyboard.noKb])
      | _, _ => [BotAction.editMessage noPairInfoMsg Keyboard.noKb]
    else if data = "market_sentiment" then
      match st.instrument, st.timeframe with
      | some inst, some _ =>
          (BotAction.editMessage sentLoadingMsg Keyboard.noKb) ::
          (match newsResult with
           | some news =>
               (BotAction.sendMessage chat_id (sentimentBodyMsg inst news) Keyboard.backKb) ::
               (match st.original_message with
                | some orig => [BotAction.editMessage orig Keyboard.mainKb]
                | none => [BotAction.editMessage genericErrorMsg Keyboard.noKb])
           | none =>
               match st.original_message with
               | some orig =>
                   [BotAction.editMessage orig Keyboard.mainKb,
                    BotAction.sendMessage chat_id sentimentApologyMsg Keyboard.noKb]
               | none => [BotAction.editMessage genericErrorMsg Keyboard.noKb])
      | _, _ => [BotAction.editMessage noPairInfoMsg Keyboard.noKb]
    else if data = "back_to_signal" then
      match st.original_message with
      | some orig => [BotAction.editMessage orig Keyboard.mainKb]
      | none => []
    else []
  (states, BotAction.answerQuery :: actions)

/-- Boolean infix test on character lists, for substring claims about
rendered messages. -/
def isSubstrOf (pat : List Char) : List Char → Bool
  | [] => pat.isEmpty
  | c :: rest => pat.isPrefixOf (c :: rest) || isSubstrOf pat rest

/-- An action that displays text to the user (edit or send). -/
def showsMessage : BotAction → Bool
  | BotAction.editMessage _ _ => true
  | BotAction.sendMessage _ _ _ => true
  | _ => false

/-- An action carrying the single back-to-signal button. -/
def usesBackKb : BotAction → Bool
  | BotAction.editMessage _ Keyboard.backKb => true
  | BotAction.sendMessage _ _ Keyboard.backKb => true
  | _ => false

/-- Fixture: one fully-populated session for chat "123". -/
def st1 : StateMap := [(("123"), ⟨some ("EURUSD"), some ("1h"), some ("orig msg")⟩)]

/-- Fixture: one fully-populated session for chat "12". -/
def st5 : StateMap := [(("12"), ⟨some ("EURUSD"), some ("1h"), some ("orig")⟩)]

/-- Scenario A payload exactly as Python parses it: instrument EURUSD,
direction buy, entry_price 1.1000 (the float 1.1), stop_loss 1.0950 (the
float 1.095); no timeframe key, no take_profit key. -/
def sd4 : SignalData :=
  ⟨some ("EURUSD"), some ("buy"), some ("1.1"), some ("1.095"),
   none, none, none, none, none⟩

/-- Scenario A payload with a timeframe added so the user_states write
does not raise KeyError. -/
def sd4tf : SignalData :=
  ⟨some ("EURUSD"), some ("buy"), some ("1.1"), some ("1.095"),
   none, some ("1h"), none, none, none⟩

/-- Broadcast fixture carrying a pre-rendered message. -/
def sd6 : SignalData :=
  ⟨some ("EURUSD"), none, none, none, none, some ("1h"), none, none, some ("SIG")⟩

/-- Delivery oracle that fails for chat "1" only. -/
def deliver6 : String → Except String Unit :=
  fun s => if s = "1" then Except.error ("Bad Request: chat not found") else Except.ok ()

/-- Delivery oracle that always succeeds. -/
def allOk : String → Except String Unit := fun _ => Except.ok ()

/-- Payload with instrument and timeframe present but neither a direction
nor an entry price. -/
def sd7 : SignalData :=
  ⟨some ("XAUUSD"), none, none, none, none, some ("1h"), none, none, none⟩

/-- Payload with every key absent (in particular no instrument). -/
def sdEmpty : SignalData :=
  ⟨none, none, none, none, none, none, none, none, none⟩

/-- Two payloads sharing the same non-empty formatted_message but
differing in every other field. -/
def sd9 : SignalData :=
  ⟨some ("EURUSD"), some ("buy"), some ("1.1"), some ("1.095"), some ("1.105"),
   some ("1h"), some ("test"), some ("ok"), some ("CUSTOM")⟩

def sd9' : SignalData :=
  ⟨some ("GBPUSD"), some ("sell"), some ("2.2"), some ("2.25"), some ("2.15"),
   some ("4h"), some ("other"), some ("no"), some ("CUSTOM")⟩

section Proofs

attribute [local semireducible] Rat.mul Rat.inv Rat.add Rat.sub Rat.ofScientific

/-- Evaluation of roundHalfEven on an integer plus a fraction in [0, 1). -/
theorem roundHalfEven_int_add (m : ℤ) (t : ℚ) (h0 : 0 ≤ t) (h1 : t < 1) :
    roundHalfEven ((m : ℚ) + t) =
      if t < 1/2 then m
      else if t = 1/2 then (if m % 2 = 0 then m else m + 1)
      else m + 1 := by
  have ht : ⌊t⌋ = 0 := Int.floor_eq_zero_iff.mpr ⟨h0, h1⟩
  have hfl : ⌊(m : ℚ) + t⌋ = m := by
    rw [Int.floor_int_add, ht, add_zero]
  have h2 : (m : ℚ) + t - (m : ℚ) = t := by ring
  unfold roundHalfEven
  simp only [hfl, h2]

/-- roundHalfEven is symmetric about any integer centre, fractional part
split off. -/
theorem roundHalfEven_symm_aux (N m : ℤ) (t : ℚ) (h0 : 0 ≤ t) (h1 : t < 1) :
    roundHalfEven ((N : ℚ) + ((m : ℚ) + t)) + roundHalfEven ((N : ℚ) - ((m : ℚ) + t))
      = 2 * N := by
  by_cases ht : t = 0
  · subst ht
    have e1 : (N : ℚ) + ((m : ℚ) + 0) = ((N + m : ℤ) : ℚ) + 0 := by push_cast; ring
    have e2 : (N : ℚ) - ((m : ℚ) + 0) = ((N - m : ℤ) : ℚ) + 0 := by push_cast; ring
    rw [e1, e2, roundHalfEven_int_add _ _ le_rfl one_pos,
      roundHalfEven_int_add _ _ le_rfl one_pos]
    norm_num
    omega
  · have htpos : 0 < t := lt_of_le_of_ne h0 (Ne.symm ht)
    have e1 : (N : ℚ) + ((m : ℚ) + t) = ((N + m : ℤ) : ℚ) + t := by push_cast; ring
    have e2 : (N : ℚ) - ((m : ℚ) + t) = ((N - m - 1 : ℤ) : ℚ) + (1 - t) := by
      push_cast; ring
    rw [e1, e2, roundHalfEven_int_add _ t h0 h1,
      roundHalfEven_int_add _ (1 - t) (by linarith) (by linarith)]
    rcases lt_trichotomy t (1/2) with h | h | h
    · rw [if_pos h, if_neg (by linarith : ¬ (1 - t < 1/2)),
        if_neg (by intro he; linarith : ¬ (1 - t = 1/2))]
      omega
    · subst h
      norm_num
      split_ifs <;> omega
    · rw [if_neg (by linarith : ¬ (t < 1/2)), if_neg (ne_of_gt h),
        if_pos (by linarith : 1 - t < 1/2)]
      omega

/-- roundHalfEven is symmetric about any integer centre. -/
theorem roundHalfEven_symm (N : ℤ) (y : ℚ) :
    roundHalfEven ((N : ℚ) + y) + roundHalfEven ((N : ℚ) - y) = 2 * N := by
  have h := roundHalfEven_symm_aux N ⌊y⌋ (Int.fract y) (Int.fract_nonneg y)
    (Int.fract_lt_one y)
  rwa [Int.floor_add_fract] at h

/-- Rounding preserves the 1:1 symmetry of entry ± risk whenever the entry
price itself lies on the d-decimal grid. -/
theorem pyRound_symm (e y : ℚ) (d : ℕ) (N : ℤ) (hN : e * 10 ^ d = (N : ℚ)) :
    e - pyRound (e - y) d = pyRound (e + y) d - e := by
  have hpow : (0 : ℚ) < 10 ^ d := by positivity
  have e1 : (e - y) * 10 ^ d = (N : ℚ) - y * 10 ^ d := by rw [sub_mul, hN]
  have e2 : (e + y) * 10 ^ d = (N : ℚ) + y * 10 ^ d := by rw [add_mul, hN]
  have hsum : ((roundHalfEven ((N : ℚ) + y * 10 ^ d) : ℚ))
      + ((roundHalfEven ((N : ℚ) - y * 10 ^ d) : ℚ)) = 2 * (N : ℚ) := by
    exact_mod_cast congrArg (fun z : ℤ => (z : ℚ)) (roundHalfEven_symm N (y * 10 ^ d))
  have he : e = (N : ℚ) / 10 ^ d := by
    field_simp
    linarith [hN]
  unfold pyRound
  rw [e1, e2, he]
  field_simp
  linarith [hsum]

/-- Deliveries of the broadcast loop: every subscriber whose send succeeds
receives the message, independently of the other subscribers' failures. -/
theorem sendToSubscribers_deliveries (inst tf message : String)
    (deliver : String → Except String Unit) :
    ∀ (subs : List String) (states : StateMap),
      (sendToSubscribers inst tf message deliver subs states).2
        = ((subs.map trimString).filter (fun s => deliverOk deliver s)).map
            (fun s => (s, message)) := by
  intro subs
  induction subs with
  | nil => intro states; rfl
  | cons sub rest ih =>
      intro states
      simp only [sendToSubscribers, List.map_cons, List.filter_cons]
      cases hds : deliver (trimString sub) with
      | ok v => simp [deliverOk, hds, ih]
      | error e => simp [deliverOk, hds, ih]

/-- C1 (amended): button_handler keeps no record of a current view and
never mutates user_states, so a second detail-open request immediately
after a first one is processed exactly as the first was; there is no
InvalidTransition rejection anywhere in the handler. -/
theorem C1_detail_to_detail_not_guarded (chat data : String) (states : StateMap)
    (chart news chart2 news2 : Option String) :
    (button_handler chat data states chart news).1 = states ∧
    button_handler chat ("market_sentiment")
        ((button_handler chat ("technical_analysis") states chart news).1) chart2 news2
      = button_handler chat ("market_sentiment") states chart2 news2 :=
  ⟨rfl, rfl⟩

/-- C1 counterexample: with a live session for chat "123",
handle(open(TECHNICAL)) followed immediately by handle(open(SENTIMENT))
does not fail: the second call edits the displayed message (loading text,
then sentiment content, then the restored signal), contradicting the
claimed InvalidTransition rejection that should alter no content. -/
theorem C1_counterexample :
    (button_handler ("123") ("market_sentiment")
        ((button_handler ("123") ("technical_analysis") st1 (some ("img")) (some ("news"))).1)
        (some ("img")) (some ("news"))).2
      = [BotAction.answerQuery,
         BotAction.editMessage sentLoadingMsg Keyboard.noKb,
         BotAction.sendMessage ("123") (sentimentBodyMsg ("EURUSD") ("news")) Keyboard.backKb,
         BotAction.editMessage ("orig msg") Keyboard.mainKb] ∧
    ((button_handler ("123") ("market_sentiment")
        ((button_handler ("123") ("technical_analysis") st1 (some ("img")) (some ("news"))).1)
        (some ("img")) (some ("news"))).2.any showsMessage) = true := by
  refine ⟨by decide, by decide⟩

/-- C2 (amended): for an interaction whose chat has no stored session, the
detail-view buttons show the fixed friendly "please try again with a new
signal" message and mutate nothing, but the BACK button silently
acknowledges the interaction without showing any message at all (and also
mutates nothing). -/
theorem C2_missing_session_behavior (chat : String) (states : StateMap)
    (chart news : Option String) (h : states.lookup chat = none) :
    button_handler chat ("technical_analysis") states chart news
      = (states, [BotAction.answerQuery, BotAction.editMessage noPairInfoMsg Keyboard.noKb]) ∧
    button_handler chat ("market_sentiment") states chart news
      = (states, [BotAction.answerQuery, BotAction.editMessage noPairInfoMsg Keyboard.noKb]) ∧
    button_handler chat ("back_to_signal") states chart news
      = (states, [BotAction.answerQuery]) := by
  refine ⟨?_, ?_, ?_⟩ <;> simp [button_handler, h]

/-- C2 witness at chat "999" with an empty session store. -/
theorem C2_missing_session_behavior_witness :
    button_handler ("999") ("technical_analysis") [] none none
      = ([], [BotAction.answerQuery, BotAction.editMessage noPairInfoMsg Keyboard.noKb]) ∧
    button_handler ("999") ("market_sentiment") [] none none
      = ([], [BotAction.answerQuery, BotAction.editMessage noPairInfoMsg Keyboard.noKb]) ∧
    button_handler ("999") ("back_to_signal") [] none none
      = ([], [BotAction.answerQuery]) :=
  C2_missing_session_behavior ("999") [] none none rfl

/-- C2 counterexample: handle(unknownKey, BACK) acknowledges the callback
and shows no message whatsoever, so the user is not shown the claimed
friendly SessionExpired response on the BACK transition. -/
theorem C2_counterexample :
    button_handler ("999") ("back_to_signal") [] none none
      = ([], [BotAction.answerQuery]) ∧
    ((button_handler ("999") ("back_to_signal") [] none none).2.all
      (fun a => !(showsMessage a))) = true := by
  refine ⟨by decide, by decide⟩

/-- C3 (amended): the rounded stop-loss/take-profit levels are symmetric
about the entry price whenever the entry price itself lies on the
instrument's decimal grid; for a buy entry - stopLoss = takeProfit -
entry, for any other direction stopLoss - entry = entry - takeProfit. -/
theorem C3_risk_symmetry_on_grid (instrument : String) (e : ℚ) (dir : String)
    (rp rpts : Option ℚ) (r : RRLevels)
    (hr : calculate_rr_levels instrument e dir rp rpts = some r)
    (N : ℤ) (hgrid : e * 10 ^ (effectiveSettings instrument).decimals = (N : ℚ))
    (hpos : 0 < r.risk_points) :
    if lowerString dir = "buy" then e - r.stop_loss = r.take_profit - e
    else r.stop_loss - e = e - r.take_profit := by
  unfold calculate_rr_levels calcWithSettings at hr
  cases hcp : calcRiskPoints rp rpts (effectiveSettings instrument).pip_value with
  | none =>
      simp only [hcp] at hr
      exact Option.noConfusion hr
  | some y =>
      simp only [hcp] at hr
      have hsym := pyRound_symm e y (effectiveSettings instrument).decimals N hgrid
      by_cases hb : lowerString dir = "buy"
      · rw [if_pos hb] at hr ⊢
        injection hr with h
        subst h
        exact hsym
      · rw [if_neg hb] at hr ⊢
        injection hr with h
        subst h
        show pyRound (e + y) (effectiveSettings instrument).decimals - e
          = e - pyRound (e - y) (effectiveSettings instrument).decimals
        linarith [hsym]

/-- C3 witness: EURUSD buy at 1.1000 (on the 4-decimal grid) with risk
0.0050 yields the symmetric 1.0950 / 1.1050 pair. -/
theorem C3_risk_symmetry_on_grid_witness :
    (if lowerString ("buy") = "buy" then
        (11/10 : ℚ) - 1095/1000 = 1105/1000 - 11/10
      else (1095/1000 : ℚ) - 11/10 = 11/10 - 1105/1000) := by
  have h := C3_risk_symmetry_on_grid ("EURUSD") (11/10) ("buy") none (some (5/1000))
    ⟨11/10, 1095/1000, 1105/1000, 5/1000, some 50, 1/10000⟩ (by decide) 11000 (by decide)
    (by decide)
  exact h

/-- C3 counterexample: EURUSD buy at entry 1.00002 (not representable at 4
decimals) with positive risk 0.0001 rounds to stop 0.9999 and take profit
1.0001, and entry - stopLoss = 0.00012 while takeProfit - entry = 0.00008,
so the claimed symmetry after rounding fails. -/
theorem C3_counterexample :
    calculate_rr_levels ("EURUSD") (100002/100000) ("buy") none (some (1/10000))
      = some ⟨100002/100000, 9999/10000, 10001/10000, 1/10000, some 1, 1/10000⟩ ∧
    ¬ ((100002/100000 : ℚ) - 9999/10000 = 10001/10000 - 100002/100000) ∧
    (0 : ℚ) < 1/10000 := by
  refine ⟨by decide, by norm_num, by norm_num⟩

/-- C4 counterexample: dispatching the exact scenario-A payload (which
carries no timeframe key) aborts with the catch-all HTTPException 500 from
the KeyError on signal_data, delivering nothing and leaving user_states
untouched, so no rendered text containing the claimed fields is produced
at all. -/
theorem C4_counterexample :
    send_signal sd4 (some ("123")) [] allOk []
      = ⟨[], [], HttpOutcome.httpError 500 ("Error sending signal: \x27timeframe\x27")⟩ := by
  decide

/-- C4 (amended): with a timeframe added so dispatch succeeds, the
delivered text contains "EURUSD" and "BUY", but dispatch never invokes the
risk-reward computation: the take-profit line renders the absent field as
"Unknown" and the string "1.1050" appears nowhere (prices render as Python
renders the parsed floats, "1.1" and "1.095"). -/
theorem C4_dispatch_behavior :
    (send_signal sd4tf (some ("123")) [] allOk []).result = HttpOutcome.ok () ∧
    (send_signal sd4tf (some ("123")) [] allOk []).deliveries
      = [(("123"), messageFor sd4tf)] ∧
    isSubstrOf (("EURUSD").toList) ((messageFor sd4tf).toList) = true ∧
    isSubstrOf (("BUY").toList) ((messageFor sd4tf).toList) = true ∧
    isSubstrOf (("1.1050").toList) ((messageFor sd4tf).toList) = false ∧
    isSubstrOf (("<b>Take Profit:</b> Unknown").toList) ((messageFor sd4tf).toList) = true := by
  refine ⟨by decide, by decide, by decide, by decide, by decide, by decide⟩

/-- C5 (amended): when the chart provider fails during open(TECHNICAL),
the handler edits the message back to the original signal text with the
standard two-button keyboard and sends a separate apology message carrying
no controls; user_states is untouched, and a subsequent BACK on the same
session succeeds and restores the original rendered signal text
unchanged. -/
theorem C5_provider_failure_state_preserved (chat inst tf orig : String)
    (states : StateMap) (news chart2 news2 : Option String)
    (h : states.lookup chat = some ⟨some inst, some tf, some orig⟩) :
    button_handler chat ("technical_analysis") states none news
      = (states, [BotAction.answerQuery,
                  BotAction.editMessage techLoadingMsg Keyboard.noKb,
                  BotAction.editMessage orig Keyboard.mainKb,
                  BotAction.sendMessage chat chartApologyMsg Keyboard.noKb]) ∧
    button_handler chat ("back_to_signal") states chart2 news2
      = (states, [BotAction.answerQuery, BotAction.editMessage orig Keyboard.mainKb]) := by
  constructor <;> simp [button_handler, h]

/-- C5 witness at the concrete session st5. -/
theorem C5_provider_failure_state_preserved_witness :
    button_handler ("12") ("technical_analysis") st5 none (some ("n"))
      = (st5, [BotAction.answerQuery,
               BotAction.editMessage techLoadingMsg Keyboard.noKb,
               BotAction.editMessage ("orig") Keyboard.mainKb,
               BotAction.sendMessage ("12") chartApologyMsg Keyboard.noKb]) ∧
    button_handler ("12") ("back_to_signal") st5 none none
      = (st5, [BotAction.answerQuery, BotAction.editMessage ("orig") Keyboard.mainKb]) :=
  C5_provider_failure_state_preserved ("12") ("EURUSD") ("1h") ("orig") st5
    (some ("n")) none none rfl

/-- C5 counterexample: on a chart-provider failure none of the displayed
output carries a back control (the apology has no keyboard and the
restored message carries the two detail buttons), contradicting the
claimed "error with a working back control". -/
theorem C5_counterexample :
    ((button_handler ("12") ("technical_analysis") st5 none (some ("n"))).2.all
      (fun a => !(usesBackKb a))) = true ∧
    (button_handler ("12") ("technical_analysis") st5 none (some ("n"))).2
      ≠ [BotAction.answerQuery] := by
  refine ⟨by decide, by decide⟩

/-- C6 (amended): during a broadcast dispatch every subscriber whose send
succeeds is delivered to, regardless of other subscribers' failures
(isolation holds), but the HTTP result is the constant success response
and carries no per-recipient outcome list. -/
theorem C6_isolation_no_report (sd : SignalData) (inst tf : String)
    (hi : sd.instrument = some inst) (ht : sd.timeframe = some tf)
    (subs : List String) (deliver : String → Except String Unit) (states : StateMap) :
    (send_signal sd (some ("all")) subs deliver states).deliveries
      = ((subs.map trimString).filter (fun s => deliverOk deliver s)).map
          (fun s => (s, messageFor sd)) ∧
    (send_signal sd (some ("all")) subs deliver states).result = HttpOutcome.ok () := by
  cases subs with
  | nil => exact ⟨rfl, rfl⟩
  | cons a l =>
      have hd := sendToSubscribers_deliveries inst tf (messageFor sd) deliver (a :: l) states
      constructor
      · simpa [send_signal, hi, ht] using hd
      · simp [send_signal, hi, ht]

/-- C6 witness: two subscribers, the first failing; the second still
receives the message and the result is the fixed success value. -/
theorem C6_isolation_no_report_witness :
    (send_signal sd6 (some ("all")) [("1 "), ("2")] deliver6 []).deliveries
      = [(("2"), messageFor sd6)] ∧
    (send_signal sd6 (some ("all")) [("1 "), ("2")] deliver6 []).result
      = HttpOutcome.ok () := by
  have h := C6_isolation_no_report sd6 ("EURUSD") ("1h") rfl rfl [("1 "), ("2")] deliver6 []
  refine ⟨h.1.trans (by decide), h.2⟩

/-- C6 counterexample: a run with one failing recipient returns a result
identical to the run where every send succeeds, even though the delivered
sets differ, so the dispatch result reports no per-recipient outcomes. -/
theorem C6_counterexample :
    (send_signal sd6 (some ("all")) [("1"), ("2")] deliver6 []).result
      = (send_signal sd6 (some ("all")) [("1"), ("2")] allOk []).result ∧
    (send_signal sd6 (some ("all")) [("1"), ("2")] deliver6 []).deliveries
      ≠ (send_signal sd6 (some ("all")) [("1"), ("2")] allOk []).deliveries := by
  refine ⟨by decide, by decide⟩

/-- C7 (amended): send_signal performs no signal validation.  A payload
missing the instrument key aborts with the catch-all HTTPException 500
(server error, not a 4xx InvalidSignal) before any state write or
delivery; a payload missing direction and entry price but carrying
instrument and timeframe is delivered normally, rendering "Unknown" in the
message. -/
theorem C7_no_validation (sd : SignalData) (c : String) (subs : List String)
    (deliver : String → Except String Unit) (states : StateMap)
    (hc : ¬ ((some c : Option String) = some ("all"))) (hinst : sd.instrument = none) :
    send_signal sd (some c) subs deliver states
      = ⟨states, [], HttpOutcome.httpError 500 ("Error sending signal: \x27instrument\x27")⟩ ∧
    (send_signal sd7 (some ("7")) [] allOk []).result = HttpOutcome.ok () ∧
    (send_signal sd7 (some ("7")) [] allOk []).deliveries = [(("7"), messageFor sd7)] ∧
    isSubstrOf (("Unknown").toList) ((messageFor sd7).toList) = true ∧
    sd7.direction = none ∧ sd7.entry_price = none := by
  refine ⟨?_, by decide, by decide, by decide, rfl, rfl⟩
  simp [send_signal, hc, hinst, keyErrorDetail]

/-- C7 witness: the empty payload aborts with the 500 KeyError detail. -/
theorem C7_no_validation_witness :
    send_signal sdEmpty (some ("55")) [] allOk []
      = ⟨[], [], HttpOutcome.httpError 500 ("Error sending signal: \x27instrument\x27")⟩ ∧
    (send_signal sd7 (some ("7")) [] allOk []).result = HttpOutcome.ok () ∧
    (send_signal sd7 (some ("7")) [] allOk []).deliveries = [(("7"), messageFor sd7)] ∧
    isSubstrOf (("Unknown").toList) ((messageFor sd7).toList) = true ∧
    sd7.direction = none ∧ sd7.entry_price = none :=
  C7_no_validation sdEmpty ("55") [] allOk [] (by decide) rfl

/-- C7 counterexample: a payload with no direction and no entry price is
not rejected: dispatch reports success and the message is delivered, so no
InvalidSignal failure and no all-or-nothing rejection exists. -/
theorem C7_counterexample :
    (send_signal sd7 (some ("7")) [] allOk []).deliveries ≠ [] ∧
    (send_signal sd7 (some ("7")) [] allOk []).result = HttpOutcome.ok () := by
  refine ⟨by decide, by decide⟩

/-- C8: an instrument absent from MARKET_SETTINGS falls back to the
default forex convention (pip 0.0001, 4 decimals) and the computation
still succeeds. -/
theorem C8_unknown_instrument_default (inst : String) (e rpts : ℚ) (dir : String)
    (h : MARKET_SETTINGS.lookup (upperString inst) = none) :
    effectiveSettings inst = default_forex_settings ∧
    calculate_rr_levels inst e dir none (some rpts)
      = calcWithSettings default_forex_settings e dir none (some rpts) ∧
    (calculate_rr_levels inst e dir none (some rpts)).isSome = true := by
  have he : effectiveSettings inst = default_forex_settings := by
    unfold effectiveSettings
    rw [h]
    rfl
  refine ⟨he, by unfold calculate_rr_levels; rw [he], ?_⟩
  unfold calculate_rr_levels
  rw [he]
  simp only [calcWithSettings, calcRiskPoints]
  by_cases hb : lowerString dir = "buy" <;> simp [hb]

/-- C8 witness at the unknown instrument FOOUSD. -/
theorem C8_unknown_instrument_default_witness :
    effectiveSettings ("FOOUSD") = default_forex_settings ∧
    calculate_rr_levels ("FOOUSD") 2 ("sell") none (some 1)
      = calcWithSettings default_forex_settings 2 ("sell") none (some 1) ∧
    (calculate_rr_levels ("FOOUSD") 2 ("sell") none (some 1)).isSome = true :=
  C8_unknown_instrument_default ("FOOUSD") 2 1 ("sell") (by decide)

/-- C9: a non-empty formatted_message field is used verbatim as the
delivered text, and no other payload field influences it. -/
theorem C9_formatted_message_verbatim (sd sd' : SignalData) (m : String)
    (hm : ¬ (m = "")) (h : sd.formatted_message = some m)
    (h' : sd'.formatted_message = some m)
    (inst tf c : String) (hi : sd.instrument = some inst) (ht : sd.timeframe = some tf)
    (hc : ¬ ((some c : Option String) = some ("all")))
    (deliver : String → Except String Unit) (states : StateMap)
    (hdel : deliver (trimString c) = Except.ok ()) :
    messageFor sd = m ∧ messageFor sd' = m ∧
    (send_signal sd (some c) [] deliver states).deliveries = [(trimString c, m)] := by
  have hmsg : messageFor sd = m := by simp [messageFor, h, hm]
  have hmsg' : messageFor sd' = m := by simp [messageFor, h', hm]
  refine ⟨hmsg, hmsg', ?_⟩
  simp [send_signal, hc, hi, ht, hdel, hmsg]

/-- C9 witness: two payloads differing in every other field both deliver
exactly the shared formatted_message. -/
theorem C9_formatted_message_verbatim_witness :
    messageFor sd9 = ("CUSTOM") ∧ messageFor sd9' = ("CUSTOM") ∧
    (send_signal sd9 (some ("42")) [] allOk []).deliveries
      = [(trimString ("42"), ("CUSTOM"))] :=
  C9_formatted_message_verbatim sd9 sd9' ("CUSTOM") (by decide) rfl rfl
    ("EURUSD") ("1h") ("42") rfl rfl (by decide) allOk [] rfl

/-- C10 (code bug): whenever both risk parameters are falsy (absent or
0.0) the endpoint raises HTTPException(400, ...) as intended, but the
catch-all except clause converts it into a 500 whose detail embeds the 400
message, so the request is rejected without attempting the computation yet
with status 500 instead of the intended 400. -/
theorem C10_falsy_risk_rejected_as_500 (instrument : String) (entry_price : ℚ)
    (direction : String) (rp rpts : Option ℚ)
    (h : (falsyOptQ rp && falsyOptQ rpts) = true) :
    calculate_risk_reward instrument entry_price direction rp rpts
      = HttpOutcome.httpError 500 ("400: Either risk_pips or risk_points must be provided") := by
  simp only [calculate_risk_reward, h, if_true]
  rfl

/-- C10 witness: an explicit risk_pips of 0.0 is rejected exactly like an
absent parameter, with the 500-wrapped 400 detail. -/
theorem C10_falsy_risk_rejected_as_500_witness :
    calculate_risk_reward ("EURUSD") (11/10) ("buy") (some 0) none
      = HttpOutcome.httpError 500 ("400: Either risk_pips or risk_points must be provided") :=
  C10_falsy_risk_rejected_as_500 ("EURUSD") (11/10) ("buy") (some 0) none (by decide)

end Proofs
